import Mathlib

/-!
Shallow embedding of the flent helper samplers (`misc/file_iterate.c`,
`misc/tc_iterate.c`, `misc/wifistats_iterate.c`).

All three programs share the same shape: a timerfd-driven sampling loop
captures a payload into a fixed 1 MiB working buffer each tick, a `result`
function wraps it with a `Time: <sec>.<nsec>` line and a `---` separator and
writes it to the output sink (stdout, or a scratch temp file in `-b` buffered
mode, streamed back to stdout after the loop).

Modelling conventions:
  * byte buffers are `String`s (the programs only move bytes, never interpret
    them);
  * writes to the output sink and to fd 2 (stderr) are collected as lists of
    the exact strings passed to `write`/`writev`; `perror(tag)` is modelled as
    the tag string (the appended `: <errno text>` suffix depends on the OS
    error and is not part of the program's data flow);
  * C `int` arithmetic is `Int`/`Nat` (all quantities involved are far below
    2^31, except where noted);
  * the wall clock (`clock_gettime(CLOCK_REALTIME, ...)`) and the timerfd
    notifications are inputs supplied per tick.
-/

namespace FlentIterate

/-- `#define BUFFERSIZE (1024*1024)` — capacity of the working buffer. -/
def BUFFERSIZE : Nat := 1024 * 1024

/-- Zero-padded rendering of `tv_nsec` by the `%09ld` conversion:
width 9, pad with `0` (a value of 10 or more digits prints in full;
`tv_nsec` is always in `[0, 10^9)`). -/
def pad9 (n : Nat) : String :=
  let s := toString n
  String.mk (List.replicate (9 - s.length) '0') ++ s

/-- The timestamp line produced by `sprintf(..., "Time: %ld.%09ld\n", tv_sec, tv_nsec)`.
All three programs use this exact format. -/
def timeLine (sec : Int) (nsec : Nat) : String :=
  "Time: " ++ toString sec ++ "." ++ pad9 nsec ++ "\n"

/-- The fixed record separator appended after each snapshot. -/
def sep : String := "---\n"

/-- The first `n` bytes of a buffer (`String.take` stated directly on the
character list, so that it evaluates by structural recursion). -/
def strTake (s : String) (n : Nat) : String :=
  String.mk (s.data.take n)

/-- The exact bytes of `write(2, "Buffer Overrun\n", sizeof("Buffer Overrun\n"))`:
`sizeof` counts the terminating NUL, so 16 bytes including a trailing `\x00`
are written to stderr. -/
def bufferOverrunMsg : String := "Buffer Overrun\n\x00"

/-- `result` of `file_iterate.c` (lines 141-151) and `tc_iterate.c` (lines
132-142), which are textually identical.  If `bufsize - size > 40` it appends
`"Time: %ld.%09ld\n---\n"` at `buffer[size]` and issues one
`write(out, buffer, size+added)` — i.e. the record is the first `size` bytes
of the buffer followed by the timestamp line and the separator.  Otherwise it
writes `"Buffer Overrun\n"` (with its NUL) to fd 2 and emits nothing.
Returns `(writes to out, writes to fd 2)`. -/
def fi_result (size : Nat) (buffer : String) (sec : Int) (nsec : Nat) :
    List String × List String :=
  if (BUFFERSIZE : Int) - (size : Int) > 40 then
    ([strTake buffer size ++ timeLine sec nsec ++ sep], [])
  else
    ([], [bufferOverrunMsg])

/-- `result` of `wifistats_iterate.c` (lines 292-319).  It renders the
timestamp into a separate `mtime` buffer and, if `bufsize - size > 40`,
issues one `writev(out, iov, 3)` with segments (timestamp, payload,
`"---\n"`); on overrun it writes `"Buffer Overrun\n"` to fd 2 instead.
`wfail` models `writev` returning `-1` (e.g. disk full), in which case
`perror("Write failed - out of disk?")` runs; the `writev` is modelled as
atomic (all three segments or nothing).  The returned `Int` is the function's
return value `err`: because of `err = writev(...) == -1` (the comparison, not
the write count, is assigned) it is `1` on write failure and `0` otherwise —
never negative. -/
def ws_result (wfail : Bool) (size : Nat) (buffer : String) (sec : Int) (nsec : Nat) :
    List String × List String × Int :=
  if (BUFFERSIZE : Int) - (size : Int) > 40 then
    if wfail then
      ([], ["Write failed - out of disk?"], 1)
    else
      ([timeLine sec nsec ++ strTake buffer size ++ sep], [], 0)
  else
    ([], [bufferOverrunMsg], 0)

/-- One `read(timer, &fired, sizeof(fired))` from the timerfd.
`ok fired` is a successful 8-byte read reporting `fired` elapsed periods.
`fail residual` is a failed or short read (`!= 8` bytes): `perror("reading
timer")` runs, but `fired` — a block-local variable the failed read did not
(fully) overwrite — holds an indeterminate `residual` value which the next
statement `ctr += fired;` still adds to the counter. -/
inductive TimerRead where
  | ok (fired : Int)
  | fail (residual : Int)
deriving Repr, DecidableEq

/-- The value held by `fired` after the read (indeterminate on failure). -/
def firedVal : TimerRead → Int
  | .ok f => f
  | .fail r => r

/-- The stderr writes of the timer read: `perror("reading timer")` iff the
read did not return 8 bytes. -/
def timerWarn : TimerRead → List String
  | .ok _ => []
  | .fail _ => ["reading timer"]

/-- `read_once` of `file_iterate.c` (lines 126-138): open the path read-only
and read until EOF (at most `bufsize` bytes) from offset 0.  `file` is the
openable content: `none` means `open` fails and returns `-1`; then the
`if(!fp)` guard does not fire (`-1` is truthy; fd 0 is never free here since
stdin is open), every `read(-1, ...)` returns `-1`, and the function falls
through to `return len` with `len = 0`.  Returns `(len, buffer content)`. -/
def read_once (file : Option String) (bufsize : Nat) : Nat × String :=
  match file with
  | none => (0, "")
  | some content => (min content.length bufsize, strTake content bufsize)

/-- The per-iteration inputs of the sampling loop of `file_iterate.c`'s `run`
(lines 191-201): the timerfd read outcome, the current content of the sampled
file (`none` = cannot be opened), and the wall clock at emission time. -/
structure TickIn where
  timer : TimerRead
  file : Option String
  sec : Int
  nsec : Nat
deriving Repr, DecidableEq

/-- What a finished sampling loop produced: the sink writes, the stderr
writes, and the final value of `ctr`. -/
structure RunOut where
  outWrites : List String
  errWrites : List String
  ctr : Int
deriving Repr, DecidableEq

/-- The capture-and-emit part of one iteration of `file_iterate.c`'s loop
body (lines 195-200): `read_once`, then `result` on success, or `result`
with size 0 followed by `perror("reading file")` on failure.
Returns `(writes to out, writes to fd 2)`. -/
def fi_body (t : TickIn) : List String × List String :=
  let r := read_once t.file BUFFERSIZE
  if r.1 > 0 then
    fi_result r.1 r.2 t.sec t.nsec
  else
    let e := fi_result 0 r.2 t.sec t.nsec
    (e.1, e.2 ++ ["reading file"])

/-- The do-while sampling loop of `file_iterate.c`'s `run` (lines 191-201);
`tc_iterate.c`'s `forkit` (lines 198-209) has the identical scheduling
structure around a pipe capture.  Each iteration reads the timerfd (logging
`"reading timer"` on a short read), executes `ctr += fired;` with whatever
`fired` holds, captures and emits, and repeats while `ctr < count`.
The list supplies one `TickIn` per iteration; `none` means the supplied
inputs ran out before the loop terminated (in reality the timer blocks and
eventually fires again). -/
def fi_loop (count : Int) : List TickIn → Int → Option RunOut
  | [], _ => none
  | t :: rest, ctr =>
    let ctr2 := ctr + firedVal t.timer
    let e := fi_body t
    if ctr2 < count then
      match fi_loop count rest ctr2 with
      | none => none
      | some r => some ⟨e.1 ++ r.outWrites, timerWarn t.timer ++ e.2 ++ r.errWrites, r.ctr⟩
    else
      some ⟨e.1, timerWarn t.timer ++ e.2, ctr2⟩

/-- `station_stats` of `wifistats_iterate.c` (lines 64-70).  A stream handle
(`int` fd in C) is modelled as `Option String`: `some bytes` is an open
read-only descriptor whose reads yield `bytes`, `none` is the invalid
descriptor `-1` that a failed `open` returns.  (`open` never returns fd 0
here — fds 0..2 are occupied — so the C guards `fd > 0` / `if (fd)` coincide
with `isSome` / "always" respectively.)  The two `*_file` locator strings are
filled in once at discovery time and persist across ticks. -/
structure Station where
  macaddr : String
  rc_stats_file : String
  airtime_file : String
  rc_stats : Option String
  airtime : Option String
deriving Repr, DecidableEq

/-- `stations_reset` of `wifistats_iterate.c` (lines 110-120), run at the top
of every tick: for each station, `close` the previous `rc_stats` and
`airtime` descriptors (the `if (fd)` guards only skip fd 0, which never
occurs; `close(-1)` on a never-opened handle fails harmlessly), then reopen
both locator paths with `open(path, O_RDONLY)`.  `fs` is the current
filesystem: `fs path = none` means the path does not exist and `open`
returns `-1`.  Returns the updated station list and, as a trace, the list of
handle values on which `close` was called. -/
def stations_reset (fs : String → Option String) :
    List Station → List Station × List (Option String)
  | [] => ([], [])
  | s :: rest =>
    let s2 : Station :=
      { s with rc_stats := fs s.rc_stats_file, airtime := fs s.airtime_file }
    let r := stations_reset fs rest
    (s2 :: r.1, s.rc_stats :: s.airtime :: r.2)

/-- One iteration of the `while(i < cnt)` loop of `stations_read`
(`wifistats_iterate.c` lines 228-247): append `"Station: <mac>\n"`, then —
only if the airtime descriptor is open (`> 0`) — `"Airtime:\n"` followed by
the bytes one `read(fd, ..., 8192)` returns, then likewise `"RC stats:\n"`
and the rc-stats bytes.  A read returning 0 bytes (empty file) appends
nothing after the label.  The per-read 8192-byte cap is part of the input:
the handle's `String` is what the single read returns. -/
def station_read1 (s : Station) : String :=
  "Station: " ++ s.macaddr ++ "\n"
    ++ (match s.airtime with
        | some bytes => "Airtime:\n" ++ bytes
        | none => "")
    ++ (match s.rc_stats with
        | some bytes => "RC stats:\n" ++ bytes
        | none => "")

/-- `stations_read` of `wifistats_iterate.c` (lines 228-247): the loop walks
the stations in order, appending each station's block at the running buffer
offset `size`; offset accumulation into one buffer is modelled as string
concatenation. -/
def stations_read : List Station → String
  | [] => ""
  | s :: rest => station_read1 s ++ stations_read rest

/-- The per-tick payload construction of `wifistats_iterate.c`'s `run`
(lines 387-388): `stations_reset` on the current filesystem, then
`stations_read` on the freshly opened handles. -/
def ws_tick (fs : String → Option String) (stations : List Station) : String :=
  stations_read (stations_reset fs stations).1

/-- The projection of a station to the state that persists across ticks:
identifier and the two locator strings (the handles do not persist). -/
def stationLocators (s : Station) : String × String × String :=
  (s.macaddr, s.rc_stats_file, s.airtime_file)

/-- The `while ((in = readdir(fd)))` loop of `stations_open`
(`wifistats_iterate.c` lines 199-214) over the directory entry names:
`.` and `..` are skipped; every other entry is recorded (its name and two
locator paths are written into `stations[cnt]`), and if the incremented
count exceeds `limit` the loop warns `"Error : Too many stations to
process\n"` via `perror` and breaks.  Returns the final `cnt` and whether
the warning was issued. -/
def stations_open_loop (limit : Nat) : List String → Nat → Nat × Bool
  | [], cnt => (cnt, false)
  | d :: rest, cnt =>
    if d = "." then stations_open_loop limit rest cnt
    else if d = ".." then stations_open_loop limit rest cnt
    else if cnt + 1 > limit then (cnt + 1, true)
    else stations_open_loop limit rest (cnt + 1)

/-- `stations_open` of `wifistats_iterate.c` (lines 183-218), abstracted over
the directory entry list: it first halves the limit (`limit /= 2`), then runs
the recording loop from count 0.  (`run` calls it with `limit = 512`,
line 361.) -/
def stations_open (entries : List String) (limit : Nat) : Nat × Bool :=
  stations_open_loop (limit / 2) entries 0

/-- The directory entries that are actually recorded: everything except
`.` and `..`. -/
def realEntries (entries : List String) : List String :=
  entries.filter (fun d => !(d = "." || d = ".."))

/-- Output sink mode: `direct` is stdout, `staged` is the `-b` scratch
tmpfile. -/
inductive SinkMode where
  | direct
  | staged
deriving Repr, DecidableEq

/-- Sink state: content of the scratch file and of stdout (each the
concatenation of the bytes written so far). -/
structure SinkState where
  scratch : String
  stdout : String
deriving Repr, DecidableEq

/-- One emitted record reaching the sink: in direct mode `out` is
`STDOUT_FILENO`, in staged mode `out` is the scratch file descriptor and the
write appends to the scratch file. -/
def sinkEmit : SinkMode → SinkState → String → SinkState
  | .direct, st, r => { st with stdout := st.stdout ++ r }
  | .staged, st, r => { st with scratch := st.scratch ++ r }

/-- All records of a run reaching the sink in order. -/
def sinkEmitAll (m : SinkMode) (st : SinkState) : List String → SinkState
  | [] => st
  | r :: rs => sinkEmitAll m (sinkEmit m st r) rs

/-- The after-loop flush (`file_iterate.c` lines 203-208, `wifistats_iterate.c`
lines 397-401): in staged mode, `lseek(out, 0, SEEK_SET)` and a
read/write loop copy the scratch file's entire content to stdout (the copy
is chunked by `BUFFERSIZE` but byte-preserving, so it is modelled as one
append); direct mode does nothing. -/
def sinkFinalize : SinkMode → SinkState → SinkState
  | .direct, st => st
  | .staged, st => { st with stdout := st.stdout ++ st.scratch }

/-- The bytes standard output ends up with when the given records are emitted
through a sink of the given mode, starting from an empty scratch file and an
empty stdout. -/
def sinkRun (m : SinkMode) (records : List String) : String :=
  (sinkFinalize m (sinkEmitAll m ⟨"", ""⟩ records)).stdout

/-- Filesystem-visible events of a staged-mode run, in program order:
scratch-file creation (`mkstemp`), snapshot emissions, the flush-back to
stdout, and `unlink` of the scratch path. -/
inductive FsEvent where
  | create
  | unlink
  | flush
  | emit (k : Nat)
deriving Repr, DecidableEq

/-- Event order of a staged-mode `file_iterate.c` run with `n` emitted
snapshots (`tc_iterate.c` is identical): `mkstemp` before the loop
(line 158), the emissions, then after the loop the flush copy (lines
204-206) and only then `unlink(tmpfile)` (line 207). -/
def fi_staged_events (n : Nat) : List FsEvent :=
  [FsEvent.create] ++ (List.range n).map FsEvent.emit ++ [FsEvent.flush, FsEvent.unlink]

/-- Event order of a staged-mode `wifistats_iterate.c` run with `n` emitted
snapshots: `mkstemp` (line 328) and then immediately `unlink(tmpfile)`
(line 337, "make it disappear on close") before anything is emitted; after
the loop the flush copy (lines 398-400).  No later unlink exists. -/
def ws_staged_events (n : Nat) : List FsEvent :=
  [FsEvent.create, FsEvent.unlink] ++ (List.range n).map FsEvent.emit ++ [FsEvent.flush]

/-- `true` iff no snapshot emission happens before the first `unlink` of the
scratch path (the scratch file is invisible for the whole sampling phase). -/
def noEmitBeforeUnlink : List FsEvent → Bool
  | [] => true
  | FsEvent.unlink :: _ => true
  | FsEvent.emit _ :: _ => false
  | _ :: rest => noEmitBeforeUnlink rest

/-- C1: for every tick, the snapshot is emitted exactly when
`capacity - payload_size` is above the 40-byte reserve; otherwise nothing
reaches the output sink, the exact line `Buffer Overrun` is written to the
diagnostic channel, the tick is skipped without aborting the run (the
wifistats `result` return value is never negative, so the caller's
`if(err<0) break` cannot fire), and anything that does reach the sink is a
complete timestamp/payload/separator record, never a truncated one. -/
theorem c1_emit_guard (wfail : Bool) (size : Nat) (buffer : String) (sec : Int) (nsec : Nat) :
    ((fi_result size buffer sec nsec).1 ≠ [] ↔ (BUFFERSIZE : Int) - (size : Int) > 40)
    ∧ (wfail = false →
        ((ws_result wfail size buffer sec nsec).1 ≠ [] ↔ (BUFFERSIZE : Int) - (size : Int) > 40))
    ∧ (¬ ((BUFFERSIZE : Int) - (size : Int) > 40) →
        fi_result size buffer sec nsec = ([], [bufferOverrunMsg])
        ∧ ws_result wfail size buffer sec nsec = ([], [bufferOverrunMsg], 0))
    ∧ ((BUFFERSIZE : Int) - (size : Int) > 40 →
        (fi_result size buffer sec nsec).1 = [strTake buffer size ++ timeLine sec nsec ++ sep]
        ∧ (fi_result size buffer sec nsec).2 = []
        ∧ (ws_result false size buffer sec nsec).1
            = [timeLine sec nsec ++ strTake buffer size ++ sep]
        ∧ (ws_result false size buffer sec nsec).2.1 = [])
    ∧ bufferOverrunMsg.data.takeWhile (fun c => c != '\n') = "Buffer Overrun".data
    ∧ (ws_result wfail size buffer sec nsec).2.2 ≥ 0 := by
  refine ⟨?_, ?_, ?_, ?_, ?_, ?_⟩
  · by_cases h : (BUFFERSIZE : Int) - (size : Int) > 40 <;> simp [fi_result, h]
  · rintro rfl
    by_cases h : (BUFFERSIZE : Int) - (size : Int) > 40 <;> simp [ws_result, h]
  · intro h
    cases wfail <;> simp [fi_result, ws_result, h]
  · intro h
    simp [fi_result, ws_result, h]
  · decide
  · cases wfail <;> by_cases h : (BUFFERSIZE : Int) - (size : Int) > 40 <;>
      simp [ws_result, h]

/-- C1 witness: the guard evaluated at a payload of 1048570 bytes (6 bytes of
headroom, below the reserve) and at a 3-byte payload. -/
theorem c1_emit_guard_witness :
    fi_result 1048570 "" 0 0 = ([], [bufferOverrunMsg])
    ∧ ws_result false 1048570 "" 0 0 = ([], [bufferOverrunMsg], 0)
    ∧ (fi_result 3 "42\n" 5 0).1 = [strTake "42\n" 3 ++ timeLine 5 0 ++ sep] := by
  refine ⟨?_, ?_, ?_⟩
  · exact ((c1_emit_guard false 1048570 "" 0 0).2.2.1 (by decide)).1
  · exact ((c1_emit_guard false 1048570 "" 0 0).2.2.1 (by decide)).2
  · exact ((c1_emit_guard false 3 "42\n" 5 0).2.2.2.1 (by decide)).1

/-- C2 counterexample: with target count 1, a single timer fire reporting 2
elapsed periods makes the loop exit with the counter at 2, so the cumulative
counter does not reach *exactly* N — it can exceed it. -/
theorem c2_counterexample :
    fi_loop 1 [⟨TimerRead.ok 2, some "42\n", 5, 0⟩] 0
      = some ⟨["42\nTime: 5.000000000\n---\n"], [], 2⟩
    ∧ ¬ ((2 : Int) = 1) := by
  constructor
  · decide
  · decide

/-- C2 amended: the loop never exits with the cumulative counter below the
configured count (it re-checks `ctr < count` after every iteration), but the
counter may exceed the count when one timer read reports several elapsed
periods; on exit the counter is at least the count. -/
theorem c2_exit_at_least_count :
    ∀ (ins : List TickIn) (count ctr : Int) (r : RunOut),
      fi_loop count ins ctr = some r → count ≤ r.ctr := by
  intro ins
  induction ins with
  | nil => intro count ctr r h; simp [fi_loop] at h
  | cons t rest ih =>
    intro count ctr r h
    simp only [fi_loop] at h
    by_cases hc : ctr + firedVal t.timer < count
    · rw [if_pos hc] at h
      cases hr : fi_loop count rest (ctr + firedVal t.timer) with
      | none => rw [hr] at h; exact absurd h (by simp)
      | some r2 =>
        rw [hr] at h
        have h2 := ih count (ctr + firedVal t.timer) r2 hr
        cases h
        exact h2
    · rw [if_neg hc] at h
      cases h
      simpa using le_of_not_lt hc

/-- C2 witness: a run with target 1 and one fire of 3 periods exits with
counter 3, which is at least the target. -/
theorem c2_exit_at_least_count_witness :
    fi_loop 1 [⟨TimerRead.ok 3, some "a", 0, 0⟩] 0
      = some ⟨["a" ++ timeLine 0 0 ++ sep], [], 3⟩
    ∧ (1 : Int) ≤ (RunOut.mk ["a" ++ timeLine 0 0 ++ sep] [] 3).ctr := by
  constructor
  · decide
  · exact c2_exit_at_least_count [⟨TimerRead.ok 3, some "a", 0, 0⟩] 1 0
      ⟨["a" ++ timeLine 0 0 ++ sep], [], 3⟩ (by decide)

/-- C3 counterexample: the StaticFile emitter (`file_iterate.c`, shared with
`tc_iterate.c`) appends the timestamp *after* the payload: with payload
`"42\n"` the emitted record is `42\n` then `Time: ...` then `---`, which is
not the claimed timestamp-first order. -/
theorem c3_counterexample :
    (fi_result 3 "42\n" 5 0).1 = ["42\nTime: 5.000000000\n---\n"]
    ∧ "42\nTime: 5.000000000\n---\n" ≠ "Time: 5.000000000\n42\n---\n" := by
  constructor
  · decide
  · decide

/-- C3 amended: every emitted snapshot consists of the payload bytes
verbatim, a `Time: <sec>.<9-digit nsec>` line from the emission-time clock,
and the `---` separator — but the field order differs by variant: the
DynamicStationSet program emits timestamp, payload, separator, while the
StaticFile and SubprocessPipe programs emit payload, timestamp, separator. -/
theorem c3_snapshot_order (size : Nat) (buffer : String) (sec : Int) (nsec : Nat)
    (h : (BUFFERSIZE : Int) - (size : Int) > 40) :
    (ws_result false size buffer sec nsec).1 = [timeLine sec nsec ++ strTake buffer size ++ sep]
    ∧ (fi_result size buffer sec nsec).1 = [strTake buffer size ++ timeLine sec nsec ++ sep]
    ∧ timeLine sec nsec = "Time: " ++ toString sec ++ "." ++ pad9 nsec ++ "\n" := by
  refine ⟨?_, ?_, rfl⟩ <;> simp [ws_result, fi_result, h]

/-- C3 witness: both orders evaluated on a 2-byte payload. -/
theorem c3_snapshot_order_witness :
    (ws_result false 2 "ab" 7 12).1 = [timeLine 7 12 ++ strTake "ab" 2 ++ sep]
    ∧ (fi_result 2 "ab" 7 12).1 = [strTake "ab" 2 ++ timeLine 7 12 ++ sep] :=
  ⟨(c3_snapshot_order 2 "ab" 7 12 (by decide)).1,
   (c3_snapshot_order 2 "ab" 7 12 (by decide)).2.1⟩

/-- C4: the claim (and spec) require a failed timer read to contribute zero
elapsed periods, but the code runs `ctr += fired;` even when
`read(timer,&fired,8) != 8`, and `fired` — declared uninitialized inside the
loop body — then holds an indeterminate value.  Here a single failed read
whose residual value is 5 logs the `reading timer` warning but advances the
counter by 5, immediately terminating a count-3 run. -/
theorem c4_failed_timer_read_adds_residual :
    fi_loop 3 [⟨TimerRead.fail 5, some "a", 0, 0⟩] 0
      = some ⟨["a" ++ timeLine 0 0 ++ sep], ["reading timer"], 5⟩
    ∧ firedVal (TimerRead.fail 5) ≠ 0 := by
  constructor
  · decide
  · decide

/-- C5 counterexample: `stations_read` appends each stream's raw bytes
verbatim and inserts no newline after them, so two stations whose airtime
stream content is the single byte `X` yield
`...Airtime:\nXStation: ...`, not the claimed payload with a newline after
each `X`. -/
theorem c5_counterexample :
    stations_read
        [⟨"AA:BB", "", "", none, some "X"⟩, ⟨"CC:DD", "", "", none, some "X"⟩]
      = "Station: AA:BB\nAirtime:\nXStation: CC:DD\nAirtime:\nX"
    ∧ "Station: AA:BB\nAirtime:\nXStation: CC:DD\nAirtime:\nX"
      ≠ "Station: AA:BB\nAirtime:\nX\nStation: CC:DD\nAirtime:\nX\n" := by
  constructor
  · decide
  · decide

/-- C5 amended: the tick payload is the concatenation, in discovery order, of
one block per station — the `Station:` label line, then `Airtime:` plus the
stream's raw bytes exactly when the airtime handle is open, then `RC stats:`
plus the raw bytes exactly when the rc-stats handle is open; a station with
no open stream contributes only its label and causes no error.  The raw bytes
are appended verbatim (no newline is inserted), so the two-station `X`
scenario holds when each airtime stream's content is the newline-terminated
line `X\n`. -/
theorem c5_station_blocks :
    (∀ l : List Station,
      stations_read l
        = (l.map (fun s =>
            "Station: " ++ s.macaddr ++ "\n"
            ++ (match s.airtime with
                | some bytes => "Airtime:\n" ++ bytes
                | none => "")
            ++ (match s.rc_stats with
                | some bytes => "RC stats:\n" ++ bytes
                | none => ""))).foldr (fun a b => a ++ b) "")
    ∧ (∀ (s : Station) (rest : List Station), s.airtime = none → s.rc_stats = none →
        stations_read (s :: rest) = "Station: " ++ s.macaddr ++ "\n" ++ stations_read rest)
    ∧ stations_read
        [⟨"AA:BB", "", "", none, some "X\n"⟩, ⟨"CC:DD", "", "", none, some "X\n"⟩]
      = "Station: AA:BB\nAirtime:\nX\nStation: CC:DD\nAirtime:\nX\n" := by
  refine ⟨?_, ?_, by decide⟩
  · intro l
    induction l with
    | nil => rfl
    | cons s rest ih => simp [stations_read, station_read1, ih]
  · intro s rest h1 h2
    simp [stations_read, station_read1, h1, h2, String.append_assoc, String.append_empty,
      String.empty_append]

/-- C5 witness: a station with neither stream open contributes exactly its
label line. -/
theorem c5_station_blocks_witness :
    stations_read [⟨"EE:FF", "", "", none, none⟩]
      = "Station: " ++ "EE:FF" ++ "\n" ++ stations_read [] :=
  c5_station_blocks.2.1 ⟨"EE:FF", "", "", none, none⟩ [] rfl rfl

/-- The first component of `stations_reset`: every station's handles are
replaced by fresh opens of its two locator paths against the current
filesystem; identifier and locators are unchanged. -/
theorem stations_reset_fst (fs : String → Option String) (l : List Station) :
    (stations_reset fs l).1
      = l.map (fun s =>
          ⟨s.macaddr, s.rc_stats_file, s.airtime_file,
           fs s.rc_stats_file, fs s.airtime_file⟩) := by
  induction l with
  | nil => rfl
  | cons s rest ih => simp [stations_reset, ih]

/-- C6: at every tick `stations_reset` runs before `stations_read`
(`run`, lines 387-388) and closes and reopens both stream handles of every
station from its persisted locator strings, so no handle survives from one
tick to the next: the reset station list — and hence the whole tick payload —
is the same for any two station lists that agree on identifiers and locator
strings, whatever handles they carried, and after the reset each station's
handles are exactly what `open(2)` returns for its locators (`none`, i.e.
`-1`, when the file does not exist — no error). -/
theorem c6_reset_fresh_handles (fs : String → Option String) (l1 l2 : List Station)
    (h : l1.map stationLocators = l2.map stationLocators) :
    (stations_reset fs l1).1 = (stations_reset fs l2).1
    ∧ ws_tick fs l1 = ws_tick fs l2
    ∧ ∀ s2 ∈ (stations_reset fs l1).1,
        s2.rc_stats = fs s2.rc_stats_file ∧ s2.airtime = fs s2.airtime_file := by
  have hmap : ∀ l : List Station,
      l.map (fun s =>
          (⟨s.macaddr, s.rc_stats_file, s.airtime_file,
            fs s.rc_stats_file, fs s.airtime_file⟩ : Station))
        = (l.map stationLocators).map
            (fun p => ⟨p.1, p.2.1, p.2.2, fs p.2.1, fs p.2.2⟩) := by
    intro l
    rw [List.map_map]
    rfl
  have key : (stations_reset fs l1).1 = (stations_reset fs l2).1 := by
    rw [stations_reset_fst, stations_reset_fst, hmap, hmap, h]
  refine ⟨key, ?_, ?_⟩
  · unfold ws_tick
    rw [key]
  · intro s2 hs2
    rw [stations_reset_fst] at hs2
    rcases List.mem_map.mp hs2 with ⟨s, _, rfl⟩
    exact ⟨rfl, rfl⟩

/-- C6 witness: two station records with the same identifier and locators but
different leftover handles reset to the same fresh state. -/
theorem c6_reset_fresh_handles_witness :
    (stations_reset (fun _ => none) [⟨"AA", "rc", "at", some "old", none⟩]).1
      = (stations_reset (fun _ => none) [⟨"AA", "rc", "at", none, some "stale"⟩]).1 :=
  (c6_reset_fresh_handles (fun _ => none)
      [⟨"AA", "rc", "at", some "old", none⟩]
      [⟨"AA", "rc", "at", none, some "stale"⟩] rfl).1

/-- C7: a tick of the StaticFile loop whose capture fails — the path cannot
be opened (`none`) or zero bytes are read (`some ""`) — reports
`reading file` on the error stream, still emits an empty timestamped
snapshot (timestamp line and separator, no payload bytes), and the loop
continues exactly as it otherwise would: the iteration neither aborts the
run nor changes the termination condition. -/
theorem c7_capture_failure_empty_snapshot (count : Int) (t : TickIn) (rest : List TickIn)
    (ctr : Int) (hf : t.file = none ∨ t.file = some "") :
    fi_body t = ([timeLine t.sec t.nsec ++ sep], ["reading file"])
    ∧ (ctr + firedVal t.timer < count →
        fi_loop count (t :: rest) ctr
          = (fi_loop count rest (ctr + firedVal t.timer)).map
              (fun r => ⟨(timeLine t.sec t.nsec ++ sep) :: r.outWrites,
                         timerWarn t.timer ++ "reading file" :: r.errWrites, r.ctr⟩))
    ∧ (¬ ctr + firedVal t.timer < count →
        fi_loop count (t :: rest) ctr
          = some ⟨[timeLine t.sec t.nsec ++ sep],
                  timerWarn t.timer ++ ["reading file"], ctr + firedVal t.timer⟩) := by
  have hb : fi_body t = ([timeLine t.sec t.nsec ++ sep], ["reading file"]) := by
    have h40 : (BUFFERSIZE : Int) - ((0 : Nat) : Int) > 40 := by decide
    have h40n : (40 : Nat) < BUFFERSIZE := by decide
    rcases hf with hf | hf <;>
      simp [fi_body, read_once, hf, fi_result, h40, h40n, strTake, String.empty_append]
  refine ⟨hb, ?_, ?_⟩
  · intro hc
    simp only [fi_loop, hb, if_pos hc]
    cases fi_loop count rest (ctr + firedVal t.timer) <;> simp
  · intro hc
    simp only [fi_loop, hb, if_neg hc]

/-- C7 witness: a one-tick run on a missing file emits exactly the empty
timestamped snapshot and the diagnostic, and terminates normally. -/
theorem c7_capture_failure_empty_snapshot_witness :
    fi_loop 1 [⟨TimerRead.ok 1, none, 7, 1⟩] 0
      = some ⟨[timeLine 7 1 ++ sep], timerWarn (TimerRead.ok 1) ++ ["reading file"],
              0 + firedVal (TimerRead.ok 1)⟩ :=
  (c7_capture_failure_empty_snapshot 1 ⟨TimerRead.ok 1, none, 7, 1⟩ [] 0
      (Or.inl rfl)).2.2 (by decide)

/-- Direct-mode emission appends each record to stdout in order. -/
theorem sinkEmitAll_direct (rs : List String) :
    ∀ st : SinkState,
      sinkEmitAll SinkMode.direct st rs
        = ⟨st.scratch, rs.foldl (fun a b => a ++ b) st.stdout⟩ := by
  induction rs with
  | nil => intro st; rfl
  | cons r rs ih => intro st; simpa [sinkEmitAll, sinkEmit] using ih ⟨st.scratch, st.stdout ++ r⟩

/-- Staged-mode emission appends each record to the scratch file in order and
touches stdout not at all until the flush. -/
theorem sinkEmitAll_staged (rs : List String) :
    ∀ st : SinkState,
      sinkEmitAll SinkMode.staged st rs
        = ⟨rs.foldl (fun a b => a ++ b) st.scratch, st.stdout⟩ := by
  induction rs with
  | nil => intro st; rfl
  | cons r rs ih => intro st; simpa [sinkEmitAll, sinkEmit] using ih ⟨st.scratch ++ r, st.stdout⟩

/-- C8: the bytes finally delivered to standard output by a staged run — the
snapshots appended to the scratch file during the loop and streamed back from
offset 0 after it — are byte-identical in content and ordering to what direct
mode writes for the same sequence of ticks (same captures, same clock reads,
hence identical records including their timestamps). -/
theorem c8_staged_equals_direct (count : Int) (ins : List TickIn) (ctr : Int) (r : RunOut)
    (h : fi_loop count ins ctr = some r) :
    sinkRun SinkMode.staged r.outWrites = sinkRun SinkMode.direct r.outWrites := by
  unfold sinkRun
  rw [sinkEmitAll_staged, sinkEmitAll_direct]
  simp [sinkFinalize, String.empty_append]

/-- C8 witness: a one-tick run whose record round-trips through the scratch
file unchanged. -/
theorem c8_staged_equals_direct_witness :
    fi_loop 1 [⟨TimerRead.ok 1, some "b", 2, 3⟩] 0
      = some ⟨["b" ++ timeLine 2 3 ++ sep], [], 1⟩
    ∧ sinkRun SinkMode.staged (RunOut.mk ["b" ++ timeLine 2 3 ++ sep] [] 1).outWrites
      = sinkRun SinkMode.direct (RunOut.mk ["b" ++ timeLine 2 3 ++ sep] [] 1).outWrites := by
  refine ⟨by decide, ?_⟩
  exact c8_staged_equals_direct 1 [⟨TimerRead.ok 1, some "b", 2, 3⟩] 0
    ⟨["b" ++ timeLine 2 3 ++ sep], [], 1⟩ (by decide)

/-- C9 counterexample: in the StaticFile program's staged mode the scratch
path is unlinked only after the loop and the flush-back (`unlink(tmpfile)` is
the last sink operation), so already a one-snapshot run emits before the
unlink — the path stays a visible filesystem artifact during sampling. -/
theorem c9_counterexample :
    noEmitBeforeUnlink (fi_staged_events 1) = false
    ∧ fi_staged_events 1
      = [FsEvent.create, FsEvent.emit 0, FsEvent.flush, FsEvent.unlink] := by
  constructor
  · decide
  · decide

/-- Helper: a trace ending in flush-then-unlink has the unlink as its very
last event. -/
theorem getLast_append_flush_unlink (l : List FsEvent) :
    (l ++ [FsEvent.flush, FsEvent.unlink]).getLast? = some FsEvent.unlink := by
  induction l with
  | nil => rfl
  | cons a l ih =>
    cases l with
    | nil => rfl
    | cons b l => simpa [List.getLast?_cons_cons] using ih

/-- C9 amended: only the DynamicStationSet program removes the scratch file
from the filesystem namespace immediately after creating it, before any
snapshot is emitted; the StaticFile and SubprocessPipe programs unlink the
scratch path only after the loop completes and its contents are flushed to
stdout (the unlink is their final scratch-file event), so there the path
remains visible during sampling and can leak on abnormal exit. -/
theorem c9_unlink_order (n : Nat) :
    noEmitBeforeUnlink (ws_staged_events n) = true
    ∧ (fi_staged_events n).getLast? = some FsEvent.unlink := by
  constructor
  · rfl
  · simpa [fi_staged_events] using
      getLast_append_flush_unlink (FsEvent.create :: (List.range n).map FsEvent.emit)

/-- The recording loop of `stations_open`, solved in closed form: starting
from a count not above the limit, it records every non-dot entry until the
count would pass the limit, returning `min (cnt + entries) (limit + 1)` and
warning exactly when the entries outnumber the remaining capacity. -/
theorem stations_open_loop_spec (limit : Nat) :
    ∀ (entries : List String) (cnt : Nat), cnt ≤ limit →
      stations_open_loop limit entries cnt
        = (min (cnt + (realEntries entries).length) (limit + 1),
           decide (limit < cnt + (realEntries entries).length)) := by
  intro entries
  induction entries with
  | nil =>
    intro cnt h
    simp only [stations_open_loop, realEntries, List.filter_nil, List.length_nil, Nat.add_zero]
    rw [Nat.min_eq_left (by omega), decide_eq_false (by omega)]
  | cons d rest ih =>
    intro cnt h
    by_cases hd : d = "."
    · rw [show stations_open_loop limit (d :: rest) cnt
            = stations_open_loop limit rest cnt by simp [stations_open_loop, hd]]
      rw [ih cnt h]
      simp [realEntries, List.filter_cons, hd]
    · by_cases hdd : d = ".."
      · rw [show stations_open_loop limit (d :: rest) cnt
              = stations_open_loop limit rest cnt by simp [stations_open_loop, hd, hdd]]
        rw [ih cnt h]
        simp [realEntries, List.filter_cons, hd, hdd]
      · have hlen : (realEntries (d :: rest)).length = (realEntries rest).length + 1 := by
          simp [realEntries, List.filter_cons, hd, hdd]
        by_cases hc : cnt + 1 > limit
        · have hcnt : cnt = limit := by omega
          rw [show stations_open_loop limit (d :: rest) cnt = (cnt + 1, true) by
                simp [stations_open_loop, hd, hdd, hc]]
          rw [hlen]
          rw [Nat.min_eq_right (by omega), decide_eq_true (by omega)]
          rw [hcnt]
        · rw [show stations_open_loop limit (d :: rest) cnt
                = stations_open_loop limit rest (cnt + 1) by
                simp [stations_open_loop, hd, hdd, hc]]
          rw [ih (cnt + 1) (by omega)]
          rw [hlen]
          rw [show cnt + 1 + (realEntries rest).length
                = cnt + ((realEntries rest).length + 1) by omega]

/-- C10: station discovery is bounded — `stations_open` with limit `L`
records at most `L/2 + 1` stations however many entries the directory holds
(exactly `min members (L/2 + 1)` of its non-dot members), it warns
`Too many stations to process` precisely when the directory holds more than
`L/2` members, and at the actual call site limit of 512 the returned count
never exceeds 257. -/
theorem c10_stations_open_bounded (entries : List String) (limit : Nat) :
    (stations_open entries limit).1 = min (realEntries entries).length (limit / 2 + 1)
    ∧ (stations_open entries limit).1 ≤ limit / 2 + 1
    ∧ ((stations_open entries limit).2 = true ↔ limit / 2 < (realEntries entries).length)
    ∧ (stations_open entries 512).1 ≤ 257 := by
  have h := stations_open_loop_spec (limit / 2) entries 0 (Nat.zero_le _)
  have h512 := stations_open_loop_spec (512 / 2) entries 0 (Nat.zero_le _)
  refine ⟨?_, ?_, ?_, ?_⟩
  · rw [stations_open, h]
    simp
  · rw [stations_open, h]
    simp
  · rw [stations_open, h]
    simp
  · rw [stations_open, h512]
    simp

end FlentIterate
